import Mathlib

/-!
Shallow embedding of the cf_ai_finsight core: the UserSession durable actor
(src/src/UserSession.ts and src/backend/src/objects/UserSession.ts), the
briefing workflow inject step (src/backend/src/workflows/BriefingWorkflow.ts)
and the workflow status endpoint (src/src/index.ts).

Modelling conventions:
- timestamps are the millisecond clock value that `new Date()` would hold;
  the ISO-8601 rendering used by the source is strictly monotone and
  injective in this value, so order claims transfer verbatim.  Each
  operation receives the clock readings it takes as explicit parameters.
- the LLM invoker (`env.AI.run` via the code) is an explicit function
  argument returning an `AIResult`: a result object carrying a `response`
  string, a result object lacking the `response` field, or a thrown
  exception.
- JavaScript truthiness on numbers (`x ? a : b`) is modelled explicitly:
  0 is falsy, every other integer is truthy; on strings the empty string
  is falsy.
- profile and request-body fields that may be absent are `Option` values;
  a field absent from a JSON body is `none`.
-/

namespace FinSight

/-- Role of a chat message, from the `ChatMessage` interface in
src/src/UserSession.ts. -/
inductive Role where
  | system
  | user
  | assistant
deriving DecidableEq, Repr

/-- ChatMessage from src/src/UserSession.ts: role, content and the
timestamp taken when the message was built (millisecond clock value,
see module conventions). -/
structure ChatMessage where
  role : Role
  content : String
  timestamp : Nat
deriving DecidableEq, Repr

/-- FinancialProfile from src/src/UserSession.ts: every field optional.
A field is `none` exactly when the corresponding key is absent from the
JavaScript object. -/
structure FinancialProfile where
  monthlyIncome : Option Int := none
  totalDebt : Option Int := none
  savingsGoal : Option Int := none
  emergencyFund : Option Int := none
  financialGoals : Option (List String) := none
  lastUpdated : Option Nat := none
deriving DecidableEq, Repr

/-- Number of keys present on the profile object:
`Object.keys(this.financialProfile).length` in handleChat. -/
def profileKeyCount (p : FinancialProfile) : Nat :=
  (if p.monthlyIncome.isSome then 1 else 0)
  + (if p.totalDebt.isSome then 1 else 0)
  + (if p.savingsGoal.isSome then 1 else 0)
  + (if p.emergencyFund.isSome then 1 else 0)
  + (if p.financialGoals.isSome then 1 else 0)
  + (if p.lastUpdated.isSome then 1 else 0)

/-- Fixed system instruction of src/src/UserSession.ts (the constant
`SYSTEM_PROMPT`; the prompt prose is abridged here — no claim depends on
its text, only on its being one fixed string). -/
def SYSTEM_PROMPT : String :=
  "You are FinSight, a friendly and knowledgeable financial literacy coach designed specifically for students."

/-- Rendering of a numeric profile field inside the profile summary:
the source template is `field ? `$\x7bfield\x7d` : "Not set"` (backquotes of
the original elided), i.e. the
branch is chosen by JavaScript truthiness, under which the number 0 is
falsy, and an absent field is falsy as well. -/
def renderMoney (o : Option Int) : String :=
  match o with
  | none => "Not set"
  | some n => if n = 0 then "Not set" else "$" ++ toString n

/-- Rendering of the financial goals list:
`financialGoals?.join(", ") || "Not set"` — absent list, or a list whose
join is the empty string, renders as Not set. -/
def renderGoals (o : Option (List String)) : String :=
  match o with
  | none => "Not set"
  | some gs =>
      let j := String.intercalate ", " gs
      if j = "" then "Not set" else j

/-- Profile summary block appended to the system prompt by handleChat
when the profile has at least one key (src/src/UserSession.ts lines
167-174). -/
def profileSummary (p : FinancialProfile) : String :=
  "\n\nUser\u0027s Financial Profile:\n- Monthly Income: " ++ renderMoney p.monthlyIncome
  ++ "\n- Total Debt: " ++ renderMoney p.totalDebt
  ++ "\n- Savings Goal: " ++ renderMoney p.savingsGoal
  ++ "\n- Emergency Fund: " ++ renderMoney p.emergencyFund
  ++ "\n- Financial Goals: " ++ renderGoals p.financialGoals

/-- Contextual system prompt of handleChat: the fixed prompt, augmented
with the profile summary iff the profile object has at least one key. -/
def contextualSystemPrompt (p : FinancialProfile) : String :=
  if profileKeyCount p > 0 then SYSTEM_PROMPT ++ profileSummary p else SYSTEM_PROMPT

/-- Role/content pair handed to the LLM invoker (the `messages` array
elements built in handleChat). -/
structure CtxMsg where
  role : Role
  content : String
deriving DecidableEq, Repr

/-- Last `n` elements of a list, keeping order — `array.slice(-n)` in the
source (whole array when it is shorter than `n`). -/
def takeLast (n : Nat) (l : List α) : List α :=
  l.drop (l.length - n)

/-- Generation context built by handleChat (src/src/UserSession.ts lines
166-185): the contextual system prompt followed by the last 20 entries of
the given history, each mapped to its role/content pair.  handleChat
calls this on the history with the user message already appended. -/
def chatContext (hist : List ChatMessage) (p : FinancialProfile) : List CtxMsg :=
  ⟨Role.system, contextualSystemPrompt p⟩
    :: (takeLast 20 hist).map (fun m => ⟨m.role, m.content⟩)

/-- Result of the `env.AI.run` call as observed by handleChat: a result
object with a `response` string, a result object without a `response`
field, or a thrown exception. -/
inductive AIResult where
  | ok (response : String)
  | missingField
  | threw
deriving DecidableEq, Repr

/-- Assistant message content derived from a non-throwing AI result
(src/src/UserSession.ts lines 199-206):
`"response" in aiResponse ? aiResponse.response : "I apologize, ..."`
followed by `assistantContent || "No response generated"` (empty string
is falsy). -/
def assistantContent : AIResult → String
  | .ok r => if r = "" then "No response generated" else r
  | .missingField => "I apologize, but I encountered an issue generating a response. Please try again."
  | .threw => ""

/-- Durable-object storage record for one actor id: the two keys written
by saveState.  `none` means the key was never written. -/
structure Storage where
  storedHistory : Option (List ChatMessage) := none
  storedProfile : Option FinancialProfile := none
deriving DecidableEq, Repr

/-- Full state of one UserSession durable object in one process lifetime:
the in-memory fields of the class, its storage, and an instrumentation
counter of how many times the storage reads of `initialize` ran (the
side-effect counter the spec describes for load-once checking). -/
structure DOState where
  chatHistory : List ChatMessage := []
  financialProfile : FinancialProfile := {}
  initialized : Bool := false
  storage : Storage := {}
  loads : Nat := 0
deriving DecidableEq, Repr

/-- Fresh in-memory state over a given storage, as after a process
(re)start: class-field initialisers of src/src/UserSession.ts. -/
def freshState (st : Storage) : DOState :=
  { chatHistory := [], financialProfile := {}, initialized := false,
    storage := st, loads := 0 }

/-- saveState (src/src/UserSession.ts lines 84-88): persist both
in-memory fields to storage. -/
def saveState (s : DOState) : DOState :=
  { s with storage := { storedHistory := some s.chatHistory,
                        storedProfile := some s.financialProfile } }

/-- initializeState (src/src/UserSession.ts lines 69-79): return at once when
already initialized, otherwise read both storage keys (counted in
`loads`), defaulting to empty, and set the flag. -/
def initializeState (s : DOState) : DOState :=
  if s.initialized then s
  else
    { s with
      chatHistory := s.storage.storedHistory.getD [],
      financialProfile := s.storage.storedProfile.getD {},
      initialized := true,
      loads := s.loads + 1 }

/-- Trim of JavaScript String.prototype.trim: drop whitespace from both
ends.  Written over the character list so that it evaluates by plain
kernel reduction on concrete strings. -/
def trimString (s : String) : String :=
  ⟨((s.data.dropWhile Char.isWhitespace).reverse.dropWhile Char.isWhitespace).reverse⟩

/-- Outcome of the POST /chat handler as seen by the caller: the 400
validation response, the 500 response produced by the catch block in
`fetch` when the AI call throws, or the success payload
{message, timestamp}. -/
inductive ChatOutcome where
  | validationError
  | serverError
  | ok (message : String) (timestamp : Nat)
deriving DecidableEq, Repr

/-- handleChat (src/src/UserSession.ts lines 146-223).  `m` is
`body.message` (`none` when the key is absent); `t1` and `t2` are the two
clock readings taken for the user and assistant messages.  The AI call is
the function `ai`; when it throws, the exception escapes handleChat and
is caught by `fetch`, which returns the 500 response — at that point the
user message is already pushed onto the in-memory history and nothing was
persisted. -/
def handleChat (ai : List CtxMsg → AIResult) (t1 t2 : Nat)
    (m : Option String) (s : DOState) : ChatOutcome × DOState :=
  let userMessage := trimString (m.getD "")
  if userMessage = "" then (.validationError, s)
  else
    let userMsg : ChatMessage := ⟨Role.user, userMessage, t1⟩
    let s1 := { s with chatHistory := s.chatHistory ++ [userMsg] }
    match ai (chatContext s1.chatHistory s1.financialProfile) with
    | .threw => (.serverError, s1)
    | r =>
        let aMsg : ChatMessage := ⟨Role.assistant, assistantContent r, t2⟩
        let s2 := { s1 with chatHistory := s1.chatHistory ++ [aMsg] }
        (.ok aMsg.content aMsg.timestamp, saveState s2)

/-- getHistory (src/src/UserSession.ts lines 228-233): returns the full
in-memory history; no state change. -/
def getHistory (s : DOState) : List ChatMessage × DOState :=
  (s.chatHistory, s)

/-- getProfile (src/src/UserSession.ts lines 259-264): returns the
in-memory profile; no state change. -/
def getProfile (s : DOState) : FinancialProfile × DOState :=
  (s.financialProfile, s)

/-- Profile merge of updateProfile (src/src/UserSession.ts lines
242-246): `\x7b...this.financialProfile, ...updates, lastUpdated: now\x7d` —
keys present on `updates` overwrite, absent keys keep the old value, and
`lastUpdated` is set to the current clock reading. -/
def mergeProfile (old upd : FinancialProfile) (now : Nat) : FinancialProfile :=
  { monthlyIncome := upd.monthlyIncome <|> old.monthlyIncome,
    totalDebt := upd.totalDebt <|> old.totalDebt,
    savingsGoal := upd.savingsGoal <|> old.savingsGoal,
    emergencyFund := upd.emergencyFund <|> old.emergencyFund,
    financialGoals := upd.financialGoals <|> old.financialGoals,
    lastUpdated := some now }

/-- updateProfile (src/src/UserSession.ts lines 238-254): merge, persist,
return the resulting full profile with success flag. -/
def updateProfile (upd : FinancialProfile) (now : Nat) (s : DOState) :
    (FinancialProfile × Bool) × DOState :=
  let p := mergeProfile s.financialProfile upd now
  let s1 := saveState { s with financialProfile := p }
  ((p, true), s1)

/-- Fixed marker prefixed to every injected briefing
(src/src/UserSession.ts line 284). -/
def briefingMarker : String := "📊 **Daily Financial Briefing**\n\n"

/-- Outcome of POST /inject-briefing: 400 when the briefing text is
missing or empty (falsy), else the success payload. -/
inductive InjectOutcome where
  | validationError
  | ok
deriving DecidableEq, Repr

/-- injectBriefing (src/src/UserSession.ts lines 270-295).  The handler
reads only `body.briefing`; any other request field — an idempotency key
included — is ignored, and no dedupe of any kind is performed: every call
with truthy text appends one assistant message and persists. -/
def injectBriefing (briefing : Option String) (t : Nat) (s : DOState) :
    InjectOutcome × DOState :=
  match briefing with
  | none => (.validationError, s)
  | some b =>
      if b = "" then (.validationError, s)
      else
        let msg : ChatMessage := ⟨Role.assistant, briefingMarker ++ b, t⟩
        (.ok, saveState { s with chatHistory := s.chatHistory ++ [msg] })

/-- clearHistory (src/src/UserSession.ts lines 300-308): empty the
in-memory history, persist, acknowledge. -/
def clearHistory (s : DOState) : Bool × DOState :=
  (true, saveState { s with chatHistory := [] })

/-- Operation tags routed by the durable object fetch handler
(src/src/UserSession.ts lines 94-140), with the request payload and
clock readings each handler consumes. -/
inductive Op where
  | chat (m : Option String) (t1 t2 : Nat)
  | history
  | profileGet
  | profileSet (upd : FinancialProfile) (now : Nat)
  | inject (briefing : Option String) (t : Nat)
  | clear
deriving Repr

/-- State transition of one routed request body, after initialize has
run (the dispatch part of fetch). -/
def dispatch (ai : List CtxMsg → AIResult) (op : Op) (s : DOState) : DOState :=
  match op with
  | .chat m t1 t2 => (handleChat ai t1 t2 m s).2
  | .history => (getHistory s).2
  | .profileGet => (getProfile s).2
  | .profileSet upd now => (updateProfile upd now s).2
  | .inject b t => (injectBriefing b t s).2
  | .clear => (clearHistory s).2

/-- fetch (src/src/UserSession.ts lines 94-140): `await this.initialize()`
runs to completion first, then the request is routed — so every handler
sees an initialized state. -/
def fetchStep (ai : List CtxMsg → AIResult) (op : Op) (s : DOState) : DOState :=
  dispatch ai op (initializeState s)

/-- Sequence of routed requests against one actor within one process
lifetime. -/
def runOps (ai : List CtxMsg → AIResult) (ops : List Op) (s : DOState) : DOState :=
  ops.foldl (fun st op => fetchStep ai op st) s

namespace Backend

/-- State of the backend variant of the durable object
(src/backend/src/objects/UserSession.ts): only a history field, its
single storage key, and the load instrumentation counter. -/
structure BState where
  history : List FinSight.ChatMessage := []
  storedHistory : Option (List FinSight.ChatMessage) := none
  loads : Nat := 0
deriving DecidableEq, Repr

/-- initialize of the backend variant (src/backend/src/objects/UserSession.ts
lines 23-27): the storage read runs whenever the in-memory history is
empty — there is no initialized flag. -/
def initializeState (s : BState) : BState :=
  if s.history.length = 0 then
    { s with history := s.storedHistory.getD [], loads := s.loads + 1 }
  else s

/-- Fixed system prompt of the backend chat handler
(src/backend/src/objects/UserSession.ts line 42). -/
def systemPrompt : String :=
  "You are a financial coach for students. Give clear, actionable, and encouraging advice."

/-- Generation context of the backend chat handler: system prompt then the
last 20 history entries mapped to role/content. -/
def chatContext (hist : List FinSight.ChatMessage) : List FinSight.CtxMsg :=
  ⟨FinSight.Role.system, systemPrompt⟩
    :: (FinSight.takeLast 20 hist).map (fun m => ⟨m.role, m.content⟩)

/-- Chat handler of the backend variant (src/backend/src/objects/UserSession.ts
lines 33-58): the message is pushed with NO validation of any kind, then
the LLM runs and the assistant reply is appended and persisted.  A thrown
LLM call leaves the pushed user message in memory with nothing persisted
(no catch in this variant; the platform returns an error response). -/
def handleChat (ai : List FinSight.CtxMsg → FinSight.AIResult) (t1 t2 : Nat)
    (message : String) (s : BState) : FinSight.ChatOutcome × BState :=
  let userMsg : FinSight.ChatMessage := ⟨FinSight.Role.user, message, t1⟩
  let s1 := { s with history := s.history ++ [userMsg] }
  match ai (chatContext s1.history) with
  | .threw => (.serverError, s1)
  | r =>
      let content :=
        match r with
        | .ok resp => if resp = "" then "Sorry, I could not generate a response." else resp
        | _ => "Sorry, I could not generate a response."
      let aMsg : FinSight.ChatMessage := ⟨FinSight.Role.assistant, content, t2⟩
      let s2 := { s1 with history := s1.history ++ [aMsg] }
      (.ok content t2, { s2 with storedHistory := some s2.history })

/-- injectBriefing of the backend variant
(src/backend/src/objects/UserSession.ts lines 64-74): reads only the
`text` field of the body — no idempotency key, no validation, no dedupe —
appends the marked assistant message and persists. -/
def injectBriefing (text : String) (t : Nat) (s : BState) : Bool × BState :=
  let msg : FinSight.ChatMessage :=
    ⟨FinSight.Role.assistant, "📊 Morning Briefing: " ++ text, t⟩
  let s1 := { s with history := s.history ++ [msg] }
  (true, { s1 with storedHistory := some s1.history })

/-- Operation tags of the backend fetch handler. -/
inductive Op where
  | chat (message : String) (t1 t2 : Nat)
  | history
  | inject (text : String) (t : Nat)
deriving Repr

/-- Backend fetch: initialize first, then route. -/
def fetchStep (ai : List FinSight.CtxMsg → FinSight.AIResult) (op : Op)
    (s : BState) : BState :=
  let s := initializeState s
  match op with
  | .chat m t1 t2 => (handleChat ai t1 t2 m s).2
  | .history => s
  | .inject text t => (injectBriefing text t s).2

/-- Sequence of backend requests within one process lifetime. -/
def runOps (ai : List FinSight.CtxMsg → FinSight.AIResult) (ops : List Op)
    (s : BState) : BState :=
  ops.foldl (fun st op => fetchStep ai op st) s

end Backend

/-- Step (c) of the briefing workflow
(src/backend/src/workflows/BriefingWorkflow.ts lines 27-36): the step body
posts `\x7b text: summary \x7d` — the briefing text and nothing else; in
particular no idempotency key (not the workflow instance id, nor anything
else) is part of the request the actor receives. -/
def briefingInjectStep (summary : String) (t : Nat) (s : Backend.BState) :
    Backend.BState :=
  (Backend.injectBriefing summary t s).2

/-- Status record of one workflow instance as the platform reports it:
the status string plus optional output and error. -/
structure InstanceStatus where
  status : String
  output : Option String := none
  error : Option String := none
deriving DecidableEq, Repr

/-- Failure classes of the workflow status endpoint. -/
inductive WError where
  | notFound
deriving DecidableEq, Repr

/-- Successful payload of GET /api/workflow-status/:instanceId
(src/src/index.ts lines 190-195). -/
structure StatusResponse where
  instanceId : String
  status : String
  output : Option String
  error : Option String
deriving DecidableEq, Repr

/-- GET /api/workflow-status/:instanceId (src/src/index.ts lines 184-203):
`BRIEFING_WORKFLOW.get(instanceId)` rejects for an unknown instance id,
the catch block turns that rejection into the error response; for a known
id the instance status is returned as \x7binstanceId, status, output,
error\x7d.  The binding is modelled as the partial map `reg` from instance
ids to their status records. -/
def getWorkflowStatus (reg : String → Option InstanceStatus) (instanceId : String) :
    Except WError StatusResponse :=
  match reg instanceId with
  | none => .error .notFound
  | some st => .ok ⟨instanceId, st.status, st.output, st.error⟩

section SpecSide

/-- Modelled from the spec (section 4.1, for the refinement claim C6):
the generation context is "a system instruction (optionally augmented
with a rendered summary of any present profile fields) followed by the
most recent 20 history entries (oldest first) mapped to role/content
pairs"; augmentation happens "when the profile is non-empty".  Built from
the words of the spec: take the 20 most recent entries, restore oldest
first, and compare the profile with the empty profile for the
augmentation test. -/
def specGenerationContext (hist : List ChatMessage) (p : FinancialProfile) :
    List CtxMsg :=
  let sys : CtxMsg :=
    ⟨Role.system,
      if p = ({} : FinancialProfile) then SYSTEM_PROMPT
      else SYSTEM_PROMPT ++ profileSummary p⟩
  sys :: ((hist.reverse.take 20).reverse.map (fun m => ⟨m.role, m.content⟩))

end SpecSide

/-! Helper lemmas shared by several claims. -/

/-- Emptiness of the profile object agrees between the key count used by
the code and the profile-equality test used by the spec. -/
theorem profileKeyCount_eq_zero_iff (p : FinancialProfile) :
    profileKeyCount p = 0 ↔ p = ({} : FinancialProfile) := by
  obtain ⟨mi, td, sg, ef, fg, lu⟩ := p
  cases mi <;> cases td <;> cases sg <;> cases ef <;> cases fg <;> cases lu <;>
    simp [profileKeyCount, FinancialProfile.mk.injEq]

/-- Contextual system prompt in spec wording: augmented iff the profile
differs from the empty profile. -/
theorem contextualSystemPrompt_eq (p : FinancialProfile) :
    contextualSystemPrompt p =
      if p = ({} : FinancialProfile) then SYSTEM_PROMPT
      else SYSTEM_PROMPT ++ profileSummary p := by
  unfold contextualSystemPrompt
  by_cases h : p = ({} : FinancialProfile)
  · subst h
    simp [show profileKeyCount {} = 0 from rfl]
  · have : profileKeyCount p ≠ 0 := fun hz => h ((profileKeyCount_eq_zero_iff p).1 hz)
    simp [h, Nat.pos_of_ne_zero this]

/-- Taking slice(-n) as the code does equals taking the n most recent
entries and restoring oldest-first order, as the spec puts it. -/
theorem takeLast_eq_reverse_take (n : Nat) (l : List α) :
    takeLast n l = (l.reverse.take n).reverse := by
  simp [takeLast, List.take_reverse]

/-- Last n elements of a history ending in a given message keep that
message last. -/
theorem takeLast_concat (n : Nat) (l : List α) (a : α) :
    takeLast (n + 1) (l ++ [a]) = takeLast n l ++ [a] := by
  unfold takeLast
  have hlen : (l ++ [a]).length = l.length + 1 := by simp
  rw [hlen]
  have heq : l.length + 1 - (n + 1) = l.length - n := by omega
  rw [heq]
  exact List.drop_append_of_le_length (Nat.sub_le _ _)

/-- Non-throwing invoker results always produce non-empty assistant
content (the fallback strings are non-empty, and an empty response string
is replaced by a fallback). -/
theorem assistantContent_ne_empty (r : AIResult) (h : r ≠ .threw) :
    assistantContent r ≠ "" := by
  cases r with
  | ok resp =>
      by_cases hr : resp = ""
      · simp [assistantContent, hr]
      · simp [assistantContent, hr]
  | missingField => simp [assistantContent]
  | threw => exact absurd rfl h

/-- Equation lemma: a message that trims to the empty string is rejected
with no state change. -/
theorem handleChat_validation {ai : List CtxMsg → AIResult} {t1 t2 : Nat}
    {m : Option String} {s : DOState} (h : trimString (m.getD "") = "") :
    handleChat ai t1 t2 m s = (.validationError, s) := by
  simp [handleChat, h]

/-- Equation lemma: when the invoker throws, handleChat ends with the 500
outcome and the user message pushed in memory, nothing persisted. -/
theorem handleChat_threw {ai : List CtxMsg → AIResult} {t1 t2 : Nat}
    {m : Option String} {s : DOState}
    (h : ¬ trimString (m.getD "") = "")
    (hai : ai (chatContext (s.chatHistory ++ [⟨Role.user, trimString (m.getD ""), t1⟩])
        s.financialProfile) = .threw) :
    handleChat ai t1 t2 m s
      = (.serverError,
         { s with chatHistory :=
            s.chatHistory ++ [⟨Role.user, trimString (m.getD ""), t1⟩] }) := by
  simp [handleChat, h, hai]

/-- Equation lemma: on a non-throwing invoker result both messages are
appended and the whole state persisted. -/
theorem handleChat_success {ai : List CtxMsg → AIResult} {t1 t2 : Nat}
    {m : Option String} {s : DOState} {r : AIResult}
    (h : ¬ trimString (m.getD "") = "") (hr : r ≠ .threw)
    (hai : ai (chatContext (s.chatHistory ++ [⟨Role.user, trimString (m.getD ""), t1⟩])
        s.financialProfile) = r) :
    handleChat ai t1 t2 m s
      = (.ok (assistantContent r) t2,
         saveState { s with chatHistory :=
            s.chatHistory ++ [⟨Role.user, trimString (m.getD ""), t1⟩,
                              ⟨Role.assistant, assistantContent r, t2⟩] }) := by
  cases r with
  | threw => exact absurd rfl hr
  | ok resp => simp [handleChat, h, hai]
  | missingField => simp [handleChat, h, hai]

/-- Option.orElse written as a decidable branch on presence of the first
value, matching the object-spread overwrite semantics. -/
theorem orElse_eq_ite {α : Type} (o o' : Option α) :
    (o <|> o') = if o.isSome then o else o' := by
  cases o <;> rfl

/-! Claim theorems. -/

/-- C7: updateProfile merges the supplied fields into the existing
profile — fields present on the update overwrite, absent fields keep the
old value — sets lastUpdated to the current clock reading, persists, and
returns the resulting full profile; in particular updating
\x7bmonthlyIncome: 1500\x7d over prior state \x7btotalDebt: 2000\x7d yields a
profile holding both totalDebt 2000 and monthlyIncome 1500. -/
theorem updateProfile_merges_and_persists :
    ∀ (s : DOState) (upd : FinancialProfile) (now : Nat),
      ((updateProfile upd now s).1.1.monthlyIncome
          = if upd.monthlyIncome.isSome then upd.monthlyIncome
            else s.financialProfile.monthlyIncome)
      ∧ ((updateProfile upd now s).1.1.totalDebt
          = if upd.totalDebt.isSome then upd.totalDebt
            else s.financialProfile.totalDebt)
      ∧ ((updateProfile upd now s).1.1.savingsGoal
          = if upd.savingsGoal.isSome then upd.savingsGoal
            else s.financialProfile.savingsGoal)
      ∧ ((updateProfile upd now s).1.1.emergencyFund
          = if upd.emergencyFund.isSome then upd.emergencyFund
            else s.financialProfile.emergencyFund)
      ∧ ((updateProfile upd now s).1.1.financialGoals
          = if upd.financialGoals.isSome then upd.financialGoals
            else s.financialProfile.financialGoals)
      ∧ (updateProfile upd now s).1.1.lastUpdated = some now
      ∧ (updateProfile upd now s).1.2 = true
      ∧ (updateProfile upd now s).2.financialProfile = (updateProfile upd now s).1.1
      ∧ (updateProfile upd now s).2.storage.storedProfile
          = some (updateProfile upd now s).1.1
      ∧ (updateProfile { monthlyIncome := some 1500 } 99
            { financialProfile := { totalDebt := some 2000, lastUpdated := some 7 },
              initialized := true }).1.1
          = { monthlyIncome := some 1500, totalDebt := some 2000, lastUpdated := some 99 } := by
  intro s upd now
  refine ⟨?_, ?_, ?_, ?_, ?_, rfl, rfl, rfl, rfl, by rfl⟩ <;>
    simp [updateProfile, mergeProfile, orElse_eq_ite]

/-- C8: clear empties the history to length 0, acknowledges, and leaves
every profile field (lastUpdated included) exactly as it was; a getProfile
after the call returns the same profile as before, and a getHistory after
the call returns the empty history. -/
theorem clear_empties_history_profile_unchanged :
    ∀ s : DOState,
      (clearHistory s).2.chatHistory = []
      ∧ (clearHistory s).2.chatHistory.length = 0
      ∧ (clearHistory s).1 = true
      ∧ (clearHistory s).2.financialProfile = s.financialProfile
      ∧ (getProfile (clearHistory s).2).1 = (getProfile s).1
      ∧ (getHistory (clearHistory s).2).1 = []
      ∧ (clearHistory s).2.storage.storedHistory = some [] :=
  fun _ => ⟨rfl, rfl, rfl, rfl, rfl, rfl, rfl⟩

/-- C10: in the profile summary a numeric field whose value is 0 renders
as Not set, exactly as an absent field does — substituting 0 for absence
in monthlyIncome or totalDebt leaves the rendered summary unchanged —
even though the key itself counts as present, so the summary block is
still appended to the system prompt. -/
theorem zero_profile_field_renders_not_set :
    ∀ p : FinancialProfile,
      profileSummary { p with monthlyIncome := some 0 }
          = profileSummary { p with monthlyIncome := none }
      ∧ profileSummary { p with totalDebt := some 0 }
          = profileSummary { p with totalDebt := none }
      ∧ renderMoney (some 0) = "Not set"
      ∧ renderMoney none = "Not set"
      ∧ profileKeyCount { monthlyIncome := some 0 } = 1
      ∧ contextualSystemPrompt { monthlyIncome := some 0 }
          = SYSTEM_PROMPT ++ profileSummary { monthlyIncome := some 0 } := by
  intro p
  refine ⟨?_, ?_, rfl, rfl, rfl, rfl⟩ <;> simp [profileSummary, renderMoney]

/-- Registry of one completed workflow instance, used to witness the
status query. -/
def statusRegistryW : String → Option InstanceStatus :=
  fun i => if i = "wf-1" then some ⟨"complete", some "Briefing complete", none⟩ else none

/-- C9: the workflow status query fails exactly when the instance id is
unknown to the workflow binding, and for a known id returns that
status, output and error fields of that instance. -/
theorem getStatus_notFound_or_fields :
    ∀ (reg : String → Option InstanceStatus) (instanceId : String),
      (getWorkflowStatus reg instanceId = .error .notFound ↔ reg instanceId = none)
      ∧ (∀ st, reg instanceId = some st →
          getWorkflowStatus reg instanceId
            = .ok ⟨instanceId, st.status, st.output, st.error⟩) := by
  intro reg instanceId
  cases h : reg instanceId <;> simp [getWorkflowStatus, h]

/-- C9 witness: the status query on a concrete one-instance registry. -/
theorem getStatus_notFound_or_fields_witness :
    getWorkflowStatus statusRegistryW "wf-1"
      = .ok ⟨"wf-1", "complete", some "Briefing complete", none⟩ :=
  (getStatus_notFound_or_fields statusRegistryW "wf-1").2
    ⟨"complete", some "Briefing complete", none⟩ (by decide)

/-- C6: the generation context handleChat hands to the LLM invoker is
exactly one system instruction — augmented with the rendered profile
summary precisely when the profile is non-empty — followed by the most
recent 20 history entries (all of them when fewer), oldest first, each
mapped to its role/content pair; the just-appended user message is the
final entry; and the chat handler depends on the invoker only through its
value at this context. -/
theorem sendMessage_generation_context :
    (∀ (hist : List ChatMessage) (p : FinancialProfile),
        chatContext hist p = specGenerationContext hist p)
    ∧ (∀ (hist : List ChatMessage) (p : FinancialProfile),
        (chatContext hist p).length = 1 + min 20 hist.length)
    ∧ (∀ (h : List ChatMessage) (u : ChatMessage) (p : FinancialProfile),
        (chatContext (h ++ [u]) p).head? = some ⟨Role.system, contextualSystemPrompt p⟩
        ∧ ((chatContext (h ++ [u]) p).drop 1).getLast? = some ⟨u.role, u.content⟩)
    ∧ (∀ (ai ai2 : List CtxMsg → AIResult) (t1 t2 : Nat) (m : String) (s : DOState),
        ai (chatContext (s.chatHistory ++ [⟨Role.user, trimString m, t1⟩]) s.financialProfile)
          = ai2 (chatContext (s.chatHistory ++ [⟨Role.user, trimString m, t1⟩]) s.financialProfile)
        → handleChat ai t1 t2 (some m) s = handleChat ai2 t1 t2 (some m) s) := by
  refine ⟨?_, ?_, ?_, ?_⟩
  · intro hist p
    unfold chatContext specGenerationContext
    rw [takeLast_eq_reverse_take, contextualSystemPrompt_eq]
  · intro hist p
    simp [chatContext, takeLast]
    omega
  · intro h u p
    refine ⟨rfl, ?_⟩
    have h20 : (20 : Nat) = 19 + 1 := rfl
    simp only [chatContext, List.drop_one, List.tail_cons, h20, takeLast_concat,
      List.map_append, List.map_cons, List.map_nil, List.getLast?_concat]
  · intro ai ai2 t1 t2 m s hagree
    simp only [handleChat, Option.getD_some]
    split
    · rfl
    · rw [hagree]

/-- C6 witness: two invokers that agree on the generation context of a
concrete chat give the same chat outcome. -/
theorem sendMessage_generation_context_witness :
    handleChat (fun _ => AIResult.ok "Track your spending.") 0 1 (some "hi")
        { initialized := true }
      = handleChat (fun ctx => if ctx.length = 2 then AIResult.ok "Track your spending." else .threw)
          0 1 (some "hi") { initialized := true } :=
  sendMessage_generation_context.2.2.2
    (fun _ => AIResult.ok "Track your spending.")
    (fun ctx => if ctx.length = 2 then AIResult.ok "Track your spending." else .threw)
    0 1 "hi" { initialized := true } (by decide)

/-- Empty initialized actor state used by the concrete refutations. -/
def emptyActor : DOState := { initialized := true }

/-- C1 counterexample: two injectBriefing calls carrying the same text
(and, per the claim, the same idempotency key — which the handler does
not read at all) append two briefing messages: the second call does not
leave the history unchanged, and the history ends with two messages
containing the text instead of exactly one. -/
theorem injectBriefing_no_dedupe_counterexample :
    ((injectBriefing (some "X") 1 (injectBriefing (some "X") 0 emptyActor).2).2.chatHistory
      = [⟨Role.assistant, briefingMarker ++ "X", 0⟩,
         ⟨Role.assistant, briefingMarker ++ "X", 1⟩])
    ∧ (injectBriefing (some "X") 1 (injectBriefing (some "X") 0 emptyActor).2).2.chatHistory
        ≠ (injectBriefing (some "X") 0 emptyActor).2.chatHistory
    ∧ (injectBriefing (some "X") 1 (injectBriefing (some "X") 0 emptyActor).2).2.chatHistory.length
        ≠ 1 := by
  refine ⟨rfl, by decide, by decide⟩

/-- C1 amended: injectBriefing reads only the briefing text — it accepts
no idempotency key and performs no dedupe — so every call with non-empty
text appends exactly one marked briefing message and persists, and a
repeated call with the same text appends a second copy; the workflow
inject step likewise passes only the briefing text to the actor. -/
theorem injectBriefing_appends_each_call (s : DOState) (b : String) (t : Nat)
    (hb : b ≠ "") :
    (injectBriefing (some b) t s).1 = .ok
    ∧ (injectBriefing (some b) t s).2.chatHistory
        = s.chatHistory ++ [⟨Role.assistant, briefingMarker ++ b, t⟩]
    ∧ (∀ t', (injectBriefing (some b) t' (injectBriefing (some b) t s).2).2.chatHistory
        = s.chatHistory ++ [⟨Role.assistant, briefingMarker ++ b, t⟩,
                            ⟨Role.assistant, briefingMarker ++ b, t'⟩])
    ∧ (∀ bs : Backend.BState, (briefingInjectStep b t bs).history
        = bs.history ++ [⟨Role.assistant, "📊 Morning Briefing: " ++ b, t⟩]) := by
  refine ⟨?_, ?_, ?_, ?_⟩
  · simp [injectBriefing, hb]
  · simp [injectBriefing, hb, saveState]
  · intro t'
    simp [injectBriefing, hb, saveState]
  · intro bs
    rfl

/-- C1 amended witness: the two-call append at concrete inputs. -/
theorem injectBriefing_appends_each_call_witness :
    (injectBriefing (some "X") 1 (injectBriefing (some "X") 0 emptyActor).2).2.chatHistory
      = emptyActor.chatHistory
        ++ [⟨Role.assistant, briefingMarker ++ "X", 0⟩,
            ⟨Role.assistant, briefingMarker ++ "X", 1⟩] :=
  (injectBriefing_appends_each_call emptyActor "X" 0 (by decide)).2.2.1 1

/-- Invoker that always throws, modelling an AI.run rejection. -/
def aiThrows : List CtxMsg → AIResult := fun _ => .threw

/-- C2 counterexample: when the LLM invoker throws, the chat operation
fails (the caller gets the 500 response), yet a subsequent getHistory
does NOT return the state as it was before the failed call — it returns
the history with the user message already appended, while nothing was
persisted. -/
theorem failed_chat_leaves_partial_mutation_counterexample :
    (handleChat aiThrows 0 1 (some "hi") emptyActor).1 = .serverError
    ∧ (getHistory (handleChat aiThrows 0 1 (some "hi") emptyActor).2).1
        = [⟨Role.user, "hi", 0⟩]
    ∧ (getHistory emptyActor).1 = []
    ∧ (getHistory (handleChat aiThrows 0 1 (some "hi") emptyActor).2).1
        ≠ (getHistory emptyActor).1
    ∧ (handleChat aiThrows 0 1 (some "hi") emptyActor).2.storage = emptyActor.storage := by
  refine ⟨by decide, by decide, rfl, by decide, by decide⟩

/-- C2 amended: a validation failure of sendMessage or injectBriefing
leaves the whole state unchanged, and updateProfile and clear always
succeed; but sendMessage is not atomic on an invoker failure: the
persisted state and the profile are unchanged while the in-memory history
keeps the appended user message, which a subsequent getHistory returns. -/
theorem actor_operation_failure_effects
    (ai : List CtxMsg → AIResult) (t1 t2 : Nat) (m : Option String) (s : DOState) :
    ((handleChat ai t1 t2 m s).1 = .validationError → (handleChat ai t1 t2 m s).2 = s)
    ∧ ((handleChat ai t1 t2 m s).1 = .serverError →
        (handleChat ai t1 t2 m s).2.storage = s.storage
        ∧ (handleChat ai t1 t2 m s).2.financialProfile = s.financialProfile
        ∧ (getHistory (handleChat ai t1 t2 m s).2).1
            = s.chatHistory ++ [⟨Role.user, trimString (m.getD ""), t1⟩])
    ∧ (∀ b t, (injectBriefing b t s).1 = .validationError → (injectBriefing b t s).2 = s)
    ∧ (∀ upd now, (updateProfile upd now s).1.2 = true)
    ∧ (clearHistory s).1 = true := by
  refine ⟨?_, ?_, ?_, fun _ _ => rfl, rfl⟩
  · intro hv
    by_cases h : trimString (m.getD "") = ""
    · rw [handleChat_validation h]
    · exfalso
      cases hA : ai (chatContext (s.chatHistory ++ [⟨Role.user, trimString (m.getD ""), t1⟩])
          s.financialProfile) with
      | threw => rw [handleChat_threw h hA] at hv; simp at hv
      | ok resp =>
          rw [handleChat_success h (fun hx => AIResult.noConfusion hx) hA] at hv
          simp at hv
      | missingField =>
          rw [handleChat_success h (fun hx => AIResult.noConfusion hx) hA] at hv
          simp at hv
  · intro hs
    by_cases h : trimString (m.getD "") = ""
    · rw [handleChat_validation h] at hs
      simp at hs
    · cases hA : ai (chatContext (s.chatHistory ++ [⟨Role.user, trimString (m.getD ""), t1⟩])
          s.financialProfile) with
      | threw => rw [handleChat_threw h hA]; exact ⟨rfl, rfl, rfl⟩
      | ok resp =>
          rw [handleChat_success h (fun hx => AIResult.noConfusion hx) hA] at hs
          simp at hs
      | missingField =>
          rw [handleChat_success h (fun hx => AIResult.noConfusion hx) hA] at hs
          simp at hs
  · intro b t hv
    cases b with
    | none => rfl
    | some bs =>
        by_cases hb : bs = ""
        · simp [injectBriefing, hb]
        · simp [injectBriefing, hb] at hv

/-- C2 amended witness: the serverError clause at the concrete failing
chat, and the validation clause at an empty message. -/
theorem actor_operation_failure_effects_witness :
    ((getHistory (handleChat aiThrows 0 1 (some "hi") emptyActor).2).1
      = emptyActor.chatHistory ++ [⟨Role.user, "hi", 0⟩])
    ∧ (handleChat aiThrows 0 1 (some " ") emptyActor).2 = emptyActor :=
  ⟨((actor_operation_failure_effects aiThrows 0 1 (some "hi") emptyActor).2.1
      (by decide)).2.2,
   (actor_operation_failure_effects aiThrows 0 1 (some " ") emptyActor).1 (by decide)⟩

/-- Dispatch of a routed request never touches the initialized flag or
the load counter: only initializeState loads. -/
theorem dispatch_preserves_init_loads (ai : List CtxMsg → AIResult) (op : Op) (s : DOState) :
    (dispatch ai op s).initialized = s.initialized ∧ (dispatch ai op s).loads = s.loads := by
  cases op with
  | chat m t1 t2 =>
      simp only [dispatch]
      by_cases h : trimString (m.getD "") = ""
      · rw [handleChat_validation h]; exact ⟨rfl, rfl⟩
      · cases hA : ai (chatContext (s.chatHistory ++ [⟨Role.user, trimString (m.getD ""), t1⟩])
            s.financialProfile) with
        | threw => rw [handleChat_threw h hA]; exact ⟨rfl, rfl⟩
        | ok resp =>
            rw [handleChat_success h (fun hx => AIResult.noConfusion hx) hA]
            exact ⟨rfl, rfl⟩
        | missingField =>
            rw [handleChat_success h (fun hx => AIResult.noConfusion hx) hA]
            exact ⟨rfl, rfl⟩
  | history => exact ⟨rfl, rfl⟩
  | profileGet => exact ⟨rfl, rfl⟩
  | profileSet upd now => exact ⟨rfl, rfl⟩
  | inject b t =>
      cases b with
      | none => exact ⟨rfl, rfl⟩
      | some bs =>
          by_cases hb : bs = "" <;> simp [dispatch, injectBriefing, hb, saveState]
  | clear => exact ⟨rfl, rfl⟩

/-- One routed request leaves the actor initialized with at most one load
performed, whatever the starting side of the load-once invariant. -/
theorem fetchStep_load_invariant (ai : List CtxMsg → AIResult) (op : Op) (s : DOState)
    (h : (s.initialized = false ∧ s.loads = 0) ∨ (s.initialized = true ∧ s.loads ≤ 1)) :
    (fetchStep ai op s).initialized = true ∧ (fetchStep ai op s).loads ≤ 1 := by
  have hinit : (initializeState s).initialized = true ∧ (initializeState s).loads ≤ 1 := by
    rcases h with ⟨h1, h2⟩ | ⟨h1, h2⟩
    · simp [initializeState, h1, h2]
    · simpa [initializeState, h1] using h2
  obtain ⟨hd1, hd2⟩ := dispatch_preserves_init_loads ai op (initializeState s)
  exact ⟨hd1.trans hinit.1, hd2 ▸ hinit.2⟩

/-- Over any request sequence, an actor satisfying the load-once
invariant performs at most one load in total. -/
theorem runOps_loads_le_one (ai : List CtxMsg → AIResult) (ops : List Op) (s : DOState)
    (h : (s.initialized = false ∧ s.loads = 0) ∨ (s.initialized = true ∧ s.loads ≤ 1)) :
    (runOps ai ops s).loads ≤ 1 := by
  induction ops generalizing s with
  | nil =>
      rcases h with ⟨_, h2⟩ | ⟨_, h2⟩
      · simpa [runOps] using h2.le.trans (by omega)
      · simpa [runOps] using h2
  | cons op rest ih =>
      have hstep := fetchStep_load_invariant ai op s h
      exact ih (fetchStep ai op s) (Or.inr hstep)

/-- Backend actor whose persisted history exists and is empty. -/
def backendEmptyStored : Backend.BState := { storedHistory := some [] }

/-- C3 counterexample: the backend actor guards its load only by the
in-memory history being non-empty, so with an existing but empty
persisted history two routed requests in the same process lifetime read
persisted state twice — more than once per process lifetime. -/
theorem backend_reloads_counterexample :
    (Backend.runOps (fun _ => .ok "r") [.history, .history] backendEmptyStored).loads = 2 := by
  decide

/-- C3 amended: for the flag-guarded actor of src/src, the load runs at
most once per process lifetime, is idempotent, always leaves the flag
set, runs to completion before any request is dispatched, and
initializes from the persisted values when present and empty otherwise. -/
theorem load_once_flag_guarded :
    (∀ (ai : List CtxMsg → AIResult) (ops : List Op) (st : Storage),
        (runOps ai ops (freshState st)).loads ≤ 1)
    ∧ (∀ (ai : List CtxMsg → AIResult) (op : Op) (s : DOState),
        fetchStep ai op s = dispatch ai op (initializeState s))
    ∧ (∀ s : DOState, (initializeState s).initialized = true
        ∧ initializeState (initializeState s) = initializeState s)
    ∧ (∀ st : Storage,
        (initializeState (freshState st)).chatHistory = st.storedHistory.getD []
        ∧ (initializeState (freshState st)).financialProfile = st.storedProfile.getD {}
        ∧ (initializeState (freshState st)).loads = 1)
    ∧ ((initializeState (freshState {})).chatHistory = []
        ∧ (initializeState (freshState {})).financialProfile = {}) := by
  refine ⟨?_, fun _ _ _ => rfl, ?_, ?_, by constructor <;> rfl⟩
  · intro ai ops st
    exact runOps_loads_le_one ai ops (freshState st) (Or.inl ⟨rfl, rfl⟩)
  · intro s
    by_cases h : s.initialized <;> simp [initializeState, h]
  · intro st
    refine ⟨rfl, rfl, rfl⟩

/-- C4 counterexample: the backend chat handler performs no validation —
a message that is empty (hence empty after trimming) is not rejected: the
call succeeds and appends the empty user message and an assistant
reply. -/
theorem backend_chat_no_validation_counterexample :
    (Backend.handleChat (fun _ => .ok "resp") 0 1 "" {}).1 = .ok "resp" 1
    ∧ (Backend.handleChat (fun _ => .ok "resp") 0 1 "" {}).2.history
        = [⟨Role.user, "", 0⟩, ⟨Role.assistant, "resp", 1⟩]
    ∧ trimString "" = "" := by
  refine ⟨by decide, by decide, rfl⟩

/-- C4 amended: in the src/src actor, sendMessage fails with the
validation outcome exactly when the supplied text is empty after trimming
(an absent message field is likewise rejected), and the rejection leaves
the state untouched — nothing is appended and nothing persisted; the
backend variant performs no such validation. -/
theorem sendMessage_validation_exact (ai : List CtxMsg → AIResult) (t1 t2 : Nat)
    (m : String) (s : DOState) :
    ((handleChat ai t1 t2 (some m) s).1 = .validationError ↔ trimString m = "")
    ∧ (trimString m = "" → handleChat ai t1 t2 (some m) s = (.validationError, s))
    ∧ handleChat ai t1 t2 none s = (.validationError, s) := by
  have hnone : handleChat ai t1 t2 none s = (.validationError, s) :=
    handleChat_validation rfl
  refine ⟨⟨?_, ?_⟩, ?_, hnone⟩
  · intro hv
    by_cases h : trimString m = ""
    · exact h
    · exfalso
      cases hA : ai (chatContext (s.chatHistory ++ [⟨Role.user, trimString m, t1⟩])
          s.financialProfile) with
      | threw => rw [handleChat_threw (m := some m) h hA] at hv; simp at hv
      | ok resp =>
          rw [handleChat_success (m := some m) h (fun hx => AIResult.noConfusion hx) hA] at hv
          simp at hv
      | missingField =>
          rw [handleChat_success (m := some m) h (fun hx => AIResult.noConfusion hx) hA] at hv
          simp at hv
  · intro h
    rw [handleChat_validation (m := some m) h]
  · intro h
    exact handleChat_validation (m := some m) h

/-- C4 amended witness: a whitespace-only message is rejected with the
state unchanged. -/
theorem sendMessage_validation_exact_witness :
    handleChat aiThrows 0 1 (some "   ") emptyActor = (.validationError, emptyActor) :=
  (sendMessage_validation_exact aiThrows 0 1 "   " emptyActor).2.1 (by decide)

/-- Invoker returning a fixed budgeting reply, used by the concrete chat
runs. -/
def aiBudget : List CtxMsg → AIResult := fun _ => .ok "Budget by tracking expenses."

/-- C5 counterexample: when the two Date readings of a successful chat on
a fresh actor fall in the same millisecond — which nothing in the code
prevents — the two appended messages carry equal timestamps, so the
timestamps are not strictly increasing, while every other part of the
claim holds. -/
theorem equal_timestamps_counterexample :
    (handleChat aiBudget 7 7 (some "How do I budget?") emptyActor).1
        = .ok "Budget by tracking expenses." 7
    ∧ (handleChat aiBudget 7 7 (some "How do I budget?") emptyActor).2.chatHistory
        = [⟨Role.user, "How do I budget?", 7⟩,
           ⟨Role.assistant, "Budget by tracking expenses.", 7⟩]
    ∧ ¬ List.Chain' (fun a b : ChatMessage => a.timestamp < b.timestamp)
        (handleChat aiBudget 7 7 (some "How do I budget?") emptyActor).2.chatHistory := by
  have hh : (handleChat aiBudget 7 7 (some "How do I budget?") emptyActor).2.chatHistory
      = [⟨Role.user, "How do I budget?", 7⟩,
         ⟨Role.assistant, "Budget by tracking expenses.", 7⟩] := by decide
  refine ⟨by decide, hh, ?_⟩
  rw [hh]
  simp [List.chain'_cons]

/-- C5 amended: on a fresh actor a successful sendMessage makes the
history exactly the user message (trimmed supplied content, first clock
reading) followed by the assistant message (non-empty content, second
clock reading), persisted; the timestamps are the two clock readings in
order, strictly increasing whenever the clock advanced between the two
readings (which the code does not enforce); getHistory afterwards
returns exactly these messages in order without mutating state. -/
theorem sendMessage_fresh_history (ai : List CtxMsg → AIResult) (t1 t2 : Nat)
    (m : String) (s : DOState) (r : AIResult)
    (hhist : s.chatHistory = [])
    (hm : ¬ trimString m = "")
    (hai : ai (chatContext [⟨Role.user, trimString m, t1⟩] s.financialProfile) = r)
    (hr : r ≠ .threw) :
    (handleChat ai t1 t2 (some m) s).2.chatHistory
        = [⟨Role.user, trimString m, t1⟩, ⟨Role.assistant, assistantContent r, t2⟩]
    ∧ (handleChat ai t1 t2 (some m) s).1 = .ok (assistantContent r) t2
    ∧ assistantContent r ≠ ""
    ∧ (handleChat ai t1 t2 (some m) s).2.chatHistory.map ChatMessage.timestamp = [t1, t2]
    ∧ (t1 < t2 → List.Chain' (fun a b : ChatMessage => a.timestamp < b.timestamp)
          (handleChat ai t1 t2 (some m) s).2.chatHistory)
    ∧ (getHistory (handleChat ai t1 t2 (some m) s).2).1
        = (handleChat ai t1 t2 (some m) s).2.chatHistory
    ∧ (getHistory (handleChat ai t1 t2 (some m) s).2).2
        = (handleChat ai t1 t2 (some m) s).2
    ∧ (handleChat ai t1 t2 (some m) s).2.storage.storedHistory
        = some [⟨Role.user, trimString m, t1⟩, ⟨Role.assistant, assistantContent r, t2⟩] := by
  have hai2 : ai (chatContext (s.chatHistory ++ [⟨Role.user, trimString m, t1⟩])
      s.financialProfile) = r := by
    rw [hhist]; simpa using hai
  have hHC := @handleChat_success ai t1 t2 (some m) s r hm hr hai2
  rw [hHC]
  refine ⟨?_, rfl, assistantContent_ne_empty r hr, ?_, ?_, rfl, rfl, ?_⟩
  · simp [saveState, hhist]
  · simp [saveState, hhist]
  · intro ht
    simp [saveState, hhist, List.chain'_cons, ht]
  · simp [saveState, hhist]

/-- C5 amended witness: the whole property at a concrete fresh chat. -/
theorem sendMessage_fresh_history_witness :
    (handleChat aiBudget 0 1 (some "How do I budget?") emptyActor).2.chatHistory
      = [⟨Role.user, trimString "How do I budget?", 0⟩,
         ⟨Role.assistant, assistantContent (AIResult.ok "Budget by tracking expenses."), 1⟩] :=
  (sendMessage_fresh_history aiBudget 0 1 "How do I budget?" emptyActor
    (AIResult.ok "Budget by tracking expenses.") rfl (by decide) rfl (by decide)).1

end FinSight
